import Mathlib

/-!
# Verification of the Trakt→Serializd migration script

Shallow embedding of `trakt_to_serializd_migrator.py`.  The network is
modelled as an oracle (`Env`) giving, for each outbound request the script
can make, the HTTP response (status code and parsed JSON body) or a
transport-level exception.  The migration walk is embedded as a pure
function over that oracle; the outbound calls it performs (and the
`time.sleep` pacing between them) are recorded in an event trace, and the
Python exceptions that can escape are modelled with `Except`.

Dictionary accesses in the Python are embedded as follows: a direct
subscript `d['k']` on a key that may be absent becomes an `Option` field
(with `none` raising `KeyError`), while `d.get('k', default)` becomes a
total access.  Keys the claims do not touch (`season_data['number']`,
`ep['number']`) are embedded as total fields of well-formed source data.
-/

namespace TraktToSerializd

/-- An HTTP response as the script observes it: a status code with the
parsed JSON body, or a transport exception raised by `requests`. -/
inductive HttpResp (α : Type) where
  | resp (status : Nat) (body : α)
  | exn
  deriving DecidableEq

/-- Python exceptions that can propagate out of the embedded code. -/
inductive PyExn where
  /-- a direct dictionary subscript on a missing key -/
  | keyError
  /-- use of a local variable that was never bound (`show_title` in the
  per-show `except` handler before any title was read) -/
  | nameError
  /-- `raise Exception(...)` on an unexpected HTTP status -/
  | apiError (status : Nat)
  /-- a transport exception re-raised by the Trakt fetchers -/
  | transportError
  deriving DecidableEq

/-- One watched episode from Trakt's `sync/watched/shows` payload
(only its `number` is read). -/
structure TraktEpisode where
  number : Nat
  deriving DecidableEq

/-- One watched season from the Trakt payload: `number` and the list of
watched `episodes`. -/
structure TraktSeason where
  number : Nat
  episodes : List TraktEpisode
  deriving DecidableEq

/-- The `show` sub-object of a Trakt watched-show record.  `ids` is `none`
when the `'ids'` key is absent (so `show_info['ids']` raises `KeyError`);
otherwise it holds `show_info['ids'].get('tmdb')`. -/
structure TraktShow where
  title : String
  year : Option Int
  ids : Option (Option Nat)
  deriving DecidableEq

/-- One element of the Trakt watched-shows list.  `showInfo` is the
`'show'` key (`none` = absent, so `show_data['show']` raises `KeyError`);
`seasons` is `show_data.get('seasons', [])`. -/
structure TraktShowData where
  showInfo : Option TraktShow
  seasons : List TraktSeason
  deriving DecidableEq

/-- The JSON body of a Serializd season lookup.  `seasonId` is the
`'seasonId'` value, with `0` standing for an absent or falsy value (both
are rejected by the same truthiness test in `get_season_info`);
`episodes` is the `'episodes'` list, of which only the length is read. -/
structure SerializdSeason where
  seasonId : Nat
  episodes : List Unit
  deriving DecidableEq

/-- The oracle for the network: each field gives the response the
corresponding HTTP request would receive.  The body of the Serializd show
lookup is read only for its Python truthiness (`if not serializd_show`),
so it is carried as that single boolean. -/
structure Env where
  /-- GET `users/settings` on Trakt; the body is the username read from it -/
  userInfo : HttpResp String
  /-- GET `sync/watched/shows` on Trakt -/
  watchedShows : HttpResp (List TraktShowData)
  /-- GET `show/{tmdb_id}` on Serializd; body = truthiness of the JSON -/
  showLookup : Nat → HttpResp Bool
  /-- GET `show/{show_id}/season/{season_number}` on Serializd -/
  seasonLookup : Nat → Nat → HttpResp SerializdSeason
  /-- POST `episode_log/add` on Serializd (body unused) -/
  episodeLogResp : Nat → Nat → List Nat → HttpResp Unit
  /-- POST `watched_v2` on Serializd (body unused) -/
  seasonLogResp : Nat → List Nat → HttpResp Unit

/-- `MigrationManager.rate_limit_delay = 1.0` (seconds between API calls). -/
def rate_limit_delay : ℚ := 1

/-- Observable actions of the migration walk: the outbound Serializd
calls and the `time.sleep` pacing. -/
inductive Event where
  | getShowCall (tmdbId : Nat)
  | getSeasonCall (tmdbId seasonNumber : Nat)
  | logEpisodesCall (showId seasonId : Nat) (episodeNumbers : List Nat)
  | logSeasonsCall (showId : Nat) (seasonIds : List Nat)
  | sleep (seconds : ℚ)
  deriving DecidableEq

/-- `SerializdAPI.get_show_by_tmdb_id`: returns the JSON (its truthiness)
on status 200, `None` on any other status or on an exception. -/
def get_show_by_tmdb_id (env : Env) (tmdbId : Nat) : Option Bool :=
  match env.showLookup tmdbId with
  | HttpResp.resp 200 body => some body
  | HttpResp.resp _ _ => none
  | HttpResp.exn => none

/-- `SerializdAPI.get_season_info`: returns the season JSON on status 200
when its `seasonId` is truthy, otherwise `None`; `None` also on any other
status or on an exception. -/
def get_season_info (env : Env) (showId seasonNumber : Nat) :
    Option SerializdSeason :=
  match env.seasonLookup showId seasonNumber with
  | HttpResp.resp 200 sd => if sd.seasonId ≠ 0 then some sd else none
  | HttpResp.resp _ _ => none
  | HttpResp.exn => none

/-- `SerializdAPI.log_episodes`: `True` iff the POST gets status 200 or
201; `False` on any other status or on an exception (never raises). -/
def log_episodes (env : Env) (showId seasonId : Nat)
    (episodeNumbers : List Nat) : Bool :=
  match env.episodeLogResp showId seasonId episodeNumbers with
  | HttpResp.resp s _ => s == 200 || s == 201
  | HttpResp.exn => false

/-- `SerializdAPI.log_seasons`: `True` iff the POST gets status 200 or
201; `False` on any other status or on an exception (never raises). -/
def log_seasons (env : Env) (showId : Nat) (seasonIds : List Nat) : Bool :=
  match env.seasonLogResp showId seasonIds with
  | HttpResp.resp s _ => s == 200 || s == 201
  | HttpResp.exn => false

/-- The mutable state of `migrate_watched_shows`: the two counters, the
last value bound to the Python local `show_title` (it survives across loop
iterations), and the event trace so far. -/
structure MigState where
  successful : Nat
  failed : Nat
  lastTitle : Option String
  trace : List Event
  deriving DecidableEq

/-- How one iteration of the per-show loop ends: it ran to the end of the
`try` block, it hit a `continue`, or it raised an exception. -/
inductive ShowOutcome where
  | completed
  | skipped
  | raised (e : PyExn)
  deriving DecidableEq

/-- The body of the per-season loop inside `migrate_watched_shows`,
threading the accumulator `(complete_seasons, trace)`. -/
def processSeason (env : Env) (tmdbId : Nat)
    (acc : List Nat × List Event) (sd : TraktSeason) :
    List Nat × List Event :=
  let watched := sd.episodes.map (fun ep => ep.number)
  if watched = [] then acc
  else
    let tr := acc.2 ++ [Event.getSeasonCall tmdbId sd.number]
    match get_season_info env tmdbId sd.number with
    | none => (acc.1, tr)
    | some info =>
      let seasonId := info.seasonId
      let total := info.episodes.length
      if 0 < total ∧ total ≤ watched.length then
        (acc.1 ++ [seasonId], tr ++ [Event.sleep rate_limit_delay])
      else
        let _success := log_episodes env tmdbId seasonId watched
        ((acc.1 : List Nat),
          tr ++ [Event.logEpisodesCall tmdbId seasonId watched,
                 Event.sleep rate_limit_delay])

/-- The `try` block of one iteration of the per-show loop: returns the
state after all its mutations together with how the block ended. -/
def processShowBody (env : Env) (st : MigState) (sd : TraktShowData) :
    MigState × ShowOutcome :=
  match sd.showInfo with
  | none => (st, ShowOutcome.raised PyExn.keyError)
  | some info =>
    let st1 := { st with lastTitle := some info.title }
    match info.ids with
    | none => (st1, ShowOutcome.raised PyExn.keyError)
    | some none =>
      ({ st1 with failed := st1.failed + 1 }, ShowOutcome.skipped)
    | some (some tmdbId) =>
      let st2 := { st1 with trace := st1.trace ++ [Event.getShowCall tmdbId] }
      match get_show_by_tmdb_id env tmdbId with
      | some true =>
        let res := sd.seasons.foldl (processSeason env tmdbId) ([], st2.trace)
        let st3 := { st2 with trace := res.2 }
        let st4 :=
          if res.1 = [] then st3
          else
            let _success := log_seasons env tmdbId res.1
            { st3 with trace := st3.trace ++ [Event.logSeasonsCall tmdbId res.1] }
        ({ st4 with successful := st4.successful + 1 }, ShowOutcome.completed)
      | _ =>
        ({ st2 with failed := st2.failed + 1 }, ShowOutcome.skipped)

/-- One full iteration of the per-show loop, `except` handler and the
between-shows sleep included.  A `continue` skips that sleep; the handler
uses `show_title`, so when no title was ever bound the handler itself
raises `NameError`, which aborts the run. -/
def processShowStep (env : Env) (st : MigState) (sd : TraktShowData) :
    Except (PyExn × MigState) MigState :=
  match processShowBody env st sd with
  | (st2, ShowOutcome.completed) =>
    Except.ok { st2 with trace := st2.trace ++ [Event.sleep rate_limit_delay] }
  | (st2, ShowOutcome.skipped) => Except.ok st2
  | (st2, ShowOutcome.raised _e) =>
    match st2.lastTitle with
    | some _ =>
      Except.ok { st2 with failed := st2.failed + 1,
                           trace := st2.trace ++ [Event.sleep rate_limit_delay] }
    | none => Except.error (PyExn.nameError, st2)

/-- The per-show loop of `migrate_watched_shows`. -/
def migrateLoop (env : Env) : MigState → List TraktShowData →
    Except (PyExn × MigState) MigState
  | st, [] => Except.ok st
  | st, sd :: rest =>
    match processShowStep env st sd with
    | Except.ok st2 => migrateLoop env st2 rest
    | Except.error e => Except.error e

/-- The state at the start of the migration. -/
def initState : MigState := ⟨0, 0, none, []⟩

/-- `MigrationManager.migrate_watched_shows`: fetch the user info and the
watched-shows list (a non-200 status or a transport exception raises and,
re-raised by the outer handler, aborts the run), then walk the shows. -/
def migrate_watched_shows (env : Env) : Except (PyExn × MigState) MigState :=
  match env.userInfo with
  | HttpResp.resp 200 _username =>
    match env.watchedShows with
    | HttpResp.resp 200 shows => migrateLoop env initState shows
    | HttpResp.resp s _ => Except.error (PyExn.apiError s, initState)
    | HttpResp.exn => Except.error (PyExn.transportError, initState)
  | HttpResp.resp s _ => Except.error (PyExn.apiError s, initState)
  | HttpResp.exn => Except.error (PyExn.transportError, initState)

/-- The state reached by a run, whether it completed or aborted. -/
def resultState : Except (PyExn × MigState) MigState → MigState
  | Except.ok st => st
  | Except.error (_, st) => st

/-! ## Trace decomposition

`seasonTrace` and `seasonComplete` compute, for one watched season, the
events one iteration of the per-season loop emits and the `season_id`s it
appends to `complete_seasons`; `processSeason` is exactly the pair of
appends of these (`processSeason_eq`), and the fold over a show's seasons
flattens accordingly (`foldl_processSeason`). -/

/-- Does the event mark a list of seasons watched (`watched_v2` POST)? -/
def Event.isSeasonLog : Event → Bool
  | Event.logSeasonsCall _ _ => true
  | _ => false

/-- Does the event mark a list of episodes watched (`episode_log/add` POST)? -/
def Event.isEpisodeLog : Event → Bool
  | Event.logEpisodesCall _ _ _ => true
  | _ => false

/-- Is the event an outbound HTTP call (anything but a sleep)? -/
def Event.isApiCall : Event → Bool
  | Event.sleep _ => false
  | _ => true

/-- The events one iteration of the per-season loop emits. -/
def seasonTrace (env : Env) (tmdbId : Nat) (sd : TraktSeason) : List Event :=
  let watched := sd.episodes.map (fun ep => ep.number)
  if watched = [] then []
  else
    match get_season_info env tmdbId sd.number with
    | none => [Event.getSeasonCall tmdbId sd.number]
    | some info =>
      if 0 < info.episodes.length ∧ info.episodes.length ≤ watched.length then
        [Event.getSeasonCall tmdbId sd.number, Event.sleep rate_limit_delay]
      else
        [Event.getSeasonCall tmdbId sd.number,
         Event.logEpisodesCall tmdbId info.seasonId watched,
         Event.sleep rate_limit_delay]

/-- The `season_id`s one iteration of the per-season loop appends to
`complete_seasons` (at most one). -/
def seasonComplete (env : Env) (tmdbId : Nat) (sd : TraktSeason) : List Nat :=
  let watched := sd.episodes.map (fun ep => ep.number)
  if watched = [] then []
  else
    match get_season_info env tmdbId sd.number with
    | none => []
    | some info =>
      if 0 < info.episodes.length ∧ info.episodes.length ≤ watched.length then
        [info.seasonId]
      else []

/-- All `season_id`s a show's season loop judges complete, in order. -/
def showCompleteSeasons (env : Env) (tmdbId : Nat)
    (seasons : List TraktSeason) : List Nat :=
  (seasons.map (seasonComplete env tmdbId)).flatten

/-! ## Concrete fixtures

Small fully-determined networks and payloads, used to evaluate the
embedded migration on explicit inputs. -/

/-- A network that answers every request with status 200, serving the
given watched-shows payload and the given season body everywhere. -/
def fixtureEnv (shows : List TraktShowData) (season : SerializdSeason) : Env where
  userInfo := HttpResp.resp 200 "user"
  watchedShows := HttpResp.resp 200 shows
  showLookup := fun _ => HttpResp.resp 200 true
  seasonLookup := fun _ _ => HttpResp.resp 200 season
  episodeLogResp := fun _ _ _ => HttpResp.resp 200 ()
  seasonLogResp := fun _ _ => HttpResp.resp 200 ()

/-- One show (TMDB id 7) with 1 watched episode in season 1; the
destination reports that season with `seasonId` 3 and 0 total episodes. -/
def envC1 : Env :=
  fixtureEnv [⟨some ⟨"A", none, some (some 7)⟩, [⟨1, [⟨5⟩]⟩]⟩] ⟨3, []⟩

/-- One show whose Trakt record has a `'show'` object (title `"A"`) but
no `'ids'` key, so `show_info['ids']` raises `KeyError` mid-show. -/
def envC4 : Env := fixtureEnv [⟨some ⟨"A", none, none⟩, []⟩] ⟨3, []⟩

/-- One show whose season 1 reports the watched episode number 0 twice;
the destination says that season has 3 episodes. -/
def envC6 : Env :=
  fixtureEnv [⟨some ⟨"A", none, some (some 7)⟩, [⟨1, [⟨0⟩, ⟨0⟩]⟩]⟩]
    ⟨3, [(), (), ()]⟩

/-- One show with 1 watched episode of a 2-episode season. -/
def envC8 : Env :=
  fixtureEnv [⟨some ⟨"A", none, some (some 7)⟩, [⟨1, [⟨1⟩]⟩]⟩] ⟨3, [(), ()]⟩

/-- A destination whose season lookups report `seasonId` 42 with 2 total
episodes. -/
def envW1 : Env := fixtureEnv [] ⟨42, [(), ()]⟩

/-- A destination whose season lookups report `seasonId` 3 with 0 total
episodes. -/
def envW5 : Env := fixtureEnv [] ⟨3, []⟩

/-- A destination whose season lookups report `seasonId` 3 with 2 total
episodes. -/
def envW3 : Env := fixtureEnv [] ⟨3, [(), ()]⟩

/-- A network whose Trakt user-info request answers status 500. -/
def envW4 : Env := { fixtureEnv [] ⟨3, []⟩ with userInfo := HttpResp.resp 500 "user" }

/-- A network whose Trakt watched-shows request answers status 503. -/
def envW4b : Env :=
  { fixtureEnv [] ⟨3, []⟩ with watchedShows := HttpResp.resp 503 [] }

/-- A network whose Trakt watched-shows request raises a transport
exception. -/
def envW4c : Env := { fixtureEnv [] ⟨3, []⟩ with watchedShows := HttpResp.exn }

/-- A network whose Trakt user-info request raises a transport
exception. -/
def envW4d : Env := { fixtureEnv [] ⟨3, []⟩ with userInfo := HttpResp.exn }

/-- One show with 1 watched episode of a 3-episode season; all marking
requests succeed. -/
def envW7a : Env :=
  fixtureEnv [⟨some ⟨"A", none, some (some 7)⟩, [⟨1, [⟨1⟩]⟩]⟩] ⟨3, [(), (), ()]⟩

/-- The same network as `envW7a` except that every episode-marking
request answers 500 and every season-marking request raises a transport
exception. -/
def envW7b : Env :=
  { envW7a with
    episodeLogResp := fun _ _ _ => HttpResp.resp 500 ()
    seasonLogResp := fun _ _ => HttpResp.exn }

/-- One show with watched episode 2 of a 3-episode season (a unique,
positive episode number). -/
def envW6 : Env :=
  fixtureEnv [⟨some ⟨"A", none, some (some 7)⟩, [⟨1, [⟨2⟩]⟩]⟩]
    ⟨3, [(), (), ()]⟩

/-- One show whose 2 watched episodes cover the whole 2-episode season,
so the run marks the season as a whole. -/
def envW9 : Env :=
  fixtureEnv [⟨some ⟨"A", none, some (some 7)⟩, [⟨1, [⟨1⟩, ⟨2⟩]⟩]⟩] ⟨3, [(), ()]⟩

/-- The final state of the run over `envW9`. -/
def stW9 : MigState :=
  ⟨1, 0, some "A",
   [Event.getShowCall 7, Event.getSeasonCall 7 1,
    Event.sleep rate_limit_delay, Event.logSeasonsCall 7 [3],
    Event.sleep rate_limit_delay]⟩

/-! ## Decomposition lemmas -/

lemma processSeason_eq (env : Env) (tmdbId : Nat)
    (acc : List Nat × List Event) (sd : TraktSeason) :
    processSeason env tmdbId acc sd =
      (acc.1 ++ seasonComplete env tmdbId sd,
       acc.2 ++ seasonTrace env tmdbId sd) := by
  unfold processSeason seasonTrace seasonComplete
  by_cases hw : sd.episodes.map (fun ep => ep.number) = []
  · simp [hw]
  · cases hg : get_season_info env tmdbId sd.number with
    | none => simp [hw, hg]
    | some info =>
      simp [hw, hg]
      split <;> simp

lemma foldl_processSeason (env : Env) (tmdbId : Nat) :
    ∀ (l : List TraktSeason) (acc : List Nat × List Event),
    l.foldl (processSeason env tmdbId) acc =
      (acc.1 ++ (l.map (seasonComplete env tmdbId)).flatten,
       acc.2 ++ (l.map (seasonTrace env tmdbId)).flatten)
  | [], acc => by simp
  | sd :: rest, acc => by
    rw [List.foldl_cons, processSeason_eq,
        foldl_processSeason env tmdbId rest]
    simp [List.append_assoc]

/-- The full-path behaviour of one show iteration (show record present,
TMDB id present, show found on Serializd): the state mutations of the
`try` block, spelled out. -/
lemma processShowBody_found (env : Env) (st : MigState) (sd : TraktShowData)
    (info : TraktShow) (tmdbId : Nat)
    (hshow : sd.showInfo = some info)
    (hids : info.ids = some (some tmdbId))
    (hfound : get_show_by_tmdb_id env tmdbId = some true) :
    processShowBody env st sd =
      ({ st with
          lastTitle := some info.title,
          successful := st.successful + 1,
          trace := st.trace ++ [Event.getShowCall tmdbId]
            ++ (sd.seasons.map (seasonTrace env tmdbId)).flatten
            ++ (if showCompleteSeasons env tmdbId sd.seasons = [] then []
                else [Event.logSeasonsCall tmdbId
                        (showCompleteSeasons env tmdbId sd.seasons)]) },
       ShowOutcome.completed) := by
  simp only [processShowBody, hshow, hids, hfound, foldl_processSeason,
    List.nil_append, showCompleteSeasons]
  by_cases hc : (sd.seasons.map (seasonComplete env tmdbId)).flatten = []
  · simp [hc]
  · simp [hc, List.append_assoc]

/-- The four possible event lists one season iteration can emit. -/
lemma seasonTrace_shape (env : Env) (tmdbId : Nat) (sd : TraktSeason) :
    seasonTrace env tmdbId sd = [] ∨
    seasonTrace env tmdbId sd = [Event.getSeasonCall tmdbId sd.number] ∨
    seasonTrace env tmdbId sd =
      [Event.getSeasonCall tmdbId sd.number, Event.sleep rate_limit_delay] ∨
    ∃ sid, seasonTrace env tmdbId sd =
      [Event.getSeasonCall tmdbId sd.number,
       Event.logEpisodesCall tmdbId sid
         (sd.episodes.map (fun ep => ep.number)),
       Event.sleep rate_limit_delay] := by
  unfold seasonTrace
  by_cases hw : sd.episodes.map (fun ep => ep.number) = []
  · left; simp [hw]
  · cases hg : get_season_info env tmdbId sd.number with
    | none => right; left; simp [hw, hg]
    | some info =>
      by_cases hc : 0 < info.episodes.length ∧
          info.episodes.length ≤ (sd.episodes.map (fun ep => ep.number)).length
      · right; right; left
        simp only [hw, ite_false, hg]
        rw [if_pos hc]
      · right; right; right
        refine ⟨info.seasonId, ?_⟩
        simp only [hw, ite_false, hg]
        rw [if_neg hc]

/-- Any event a season iteration emits is its lookup, an episode-marking
call carrying exactly that season's watched numbers, or the pacing sleep. -/
lemma mem_seasonTrace (env : Env) (tmdbId : Nat) (sd : TraktSeason)
    (e : Event) (he : e ∈ seasonTrace env tmdbId sd) :
    e = Event.getSeasonCall tmdbId sd.number ∨
    e = Event.sleep rate_limit_delay ∨
    ∃ sid, e = Event.logEpisodesCall tmdbId sid
      (sd.episodes.map (fun ep => ep.number)) := by
  rcases seasonTrace_shape env tmdbId sd with h | h | h | ⟨sid, h⟩ <;> rw [h] at he
  · simp at he
  · simp at he
    exact Or.inl he
  · simp at he
    rcases he with he | he
    · exact Or.inl he
    · exact Or.inr (Or.inl he)
  · simp at he
    rcases he with he | he | he
    · exact Or.inl he
    · exact Or.inr (Or.inr ⟨sid, he⟩)
    · exact Or.inr (Or.inl he)

lemma processShowBody_noShow (env : Env) (st : MigState) (sd : TraktShowData)
    (h : sd.showInfo = none) :
    processShowBody env st sd = (st, ShowOutcome.raised PyExn.keyError) := by
  simp only [processShowBody, h]

lemma processShowBody_noIds (env : Env) (st : MigState) (sd : TraktShowData)
    (info : TraktShow) (h : sd.showInfo = some info) (hi : info.ids = none) :
    processShowBody env st sd =
      ({ st with lastTitle := some info.title },
       ShowOutcome.raised PyExn.keyError) := by
  simp only [processShowBody, h, hi]

lemma processShowBody_noTmdb (env : Env) (st : MigState) (sd : TraktShowData)
    (info : TraktShow) (h : sd.showInfo = some info)
    (hi : info.ids = some none) :
    processShowBody env st sd =
      ({ st with lastTitle := some info.title, failed := st.failed + 1 },
       ShowOutcome.skipped) := by
  simp only [processShowBody, h, hi]

lemma processShowBody_notFound (env : Env) (st : MigState)
    (sd : TraktShowData) (info : TraktShow) (tmdbId : Nat)
    (h : sd.showInfo = some info) (hi : info.ids = some (some tmdbId))
    (hf : get_show_by_tmdb_id env tmdbId ≠ some true) :
    processShowBody env st sd =
      ({ st with lastTitle := some info.title, failed := st.failed + 1,
                 trace := st.trace ++ [Event.getShowCall tmdbId] },
       ShowOutcome.skipped) := by
  cases hv : get_show_by_tmdb_id env tmdbId with
  | none =>
    simp only [processShowBody, h, hi, hv]
  | some b =>
    cases b with
    | true => exact absurd hv hf
    | false => simp only [processShowBody, h, hi, hv]

/-- Exhaustive description of one iteration of the per-show `try` block. -/
lemma processShowBody_total_cases (env : Env) (st : MigState)
    (sd : TraktShowData) :
    processShowBody env st sd = (st, ShowOutcome.raised PyExn.keyError) ∨
    ∃ info, sd.showInfo = some info ∧
      (processShowBody env st sd =
        ({ st with lastTitle := some info.title },
         ShowOutcome.raised PyExn.keyError) ∨
       processShowBody env st sd =
        ({ st with lastTitle := some info.title, failed := st.failed + 1 },
         ShowOutcome.skipped) ∨
       ∃ tmdbId, info.ids = some (some tmdbId) ∧
        (processShowBody env st sd =
          ({ st with lastTitle := some info.title, failed := st.failed + 1,
                     trace := st.trace ++ [Event.getShowCall tmdbId] },
           ShowOutcome.skipped) ∨
         processShowBody env st sd =
          ({ st with
              lastTitle := some info.title,
              successful := st.successful + 1,
              trace := st.trace ++ [Event.getShowCall tmdbId]
                ++ (sd.seasons.map (seasonTrace env tmdbId)).flatten
                ++ (if showCompleteSeasons env tmdbId sd.seasons = [] then []
                    else [Event.logSeasonsCall tmdbId
                            (showCompleteSeasons env tmdbId sd.seasons)]) },
           ShowOutcome.completed))) := by
  cases hs : sd.showInfo with
  | none => exact Or.inl (processShowBody_noShow env st sd hs)
  | some info =>
    refine Or.inr ⟨info, rfl, ?_⟩
    cases hi : info.ids with
    | none => exact Or.inl (processShowBody_noIds env st sd info hs hi)
    | some o =>
      cases o with
      | none => exact Or.inr (Or.inl (processShowBody_noTmdb env st sd info hs hi))
      | some tmdbId =>
        refine Or.inr (Or.inr ⟨tmdbId, rfl, ?_⟩)
        by_cases hf : get_show_by_tmdb_id env tmdbId = some true
        · exact Or.inr (processShowBody_found env st sd info tmdbId hs hi hf)
        · exact Or.inl (processShowBody_notFound env st sd info tmdbId hs hi hf)

lemma processShowBody_completed_counts (env : Env) (st : MigState)
    (sd : TraktShowData) (st2 : MigState)
    (h : processShowBody env st sd = (st2, ShowOutcome.completed)) :
    st2.successful = st.successful + 1 ∧ st2.failed = st.failed := by
  rcases processShowBody_total_cases env st sd with
      h1 | ⟨info, hinfo, h1 | h1 | ⟨t, hids, h1 | h1⟩⟩ <;>
    rw [h1] at h <;> injection h with h2 h3
  · exact ShowOutcome.noConfusion h3
  · exact ShowOutcome.noConfusion h3
  · exact ShowOutcome.noConfusion h3
  · exact ShowOutcome.noConfusion h3
  · subst h2; exact ⟨rfl, rfl⟩

lemma processShowBody_skipped_counts (env : Env) (st : MigState)
    (sd : TraktShowData) (st2 : MigState)
    (h : processShowBody env st sd = (st2, ShowOutcome.skipped)) :
    st2.successful = st.successful ∧ st2.failed = st.failed + 1 := by
  rcases processShowBody_total_cases env st sd with
      h1 | ⟨info, hinfo, h1 | h1 | ⟨t, hids, h1 | h1⟩⟩ <;>
    rw [h1] at h <;> injection h with h2 h3
  · exact ShowOutcome.noConfusion h3
  · exact ShowOutcome.noConfusion h3
  · subst h2; exact ⟨rfl, rfl⟩
  · subst h2; exact ⟨rfl, rfl⟩
  · exact ShowOutcome.noConfusion h3

lemma processShowBody_raised_counts (env : Env) (st : MigState)
    (sd : TraktShowData) (st2 : MigState) (e : PyExn)
    (h : processShowBody env st sd = (st2, ShowOutcome.raised e)) :
    st2.successful = st.successful ∧ st2.failed = st.failed := by
  rcases processShowBody_total_cases env st sd with
      h1 | ⟨info, hinfo, h1 | h1 | ⟨t, hids, h1 | h1⟩⟩ <;>
    rw [h1] at h <;> injection h with h2 h3
  · subst h2; exact ⟨rfl, rfl⟩
  · subst h2; exact ⟨rfl, rfl⟩
  · exact ShowOutcome.noConfusion h3
  · exact ShowOutcome.noConfusion h3
  · exact ShowOutcome.noConfusion h3

/-- Once the Python local `show_title` has a value it keeps one. -/
lemma processShowBody_lastTitle (env : Env) (st : MigState)
    (sd : TraktShowData) (hs : st.lastTitle.isSome = true) :
    ((processShowBody env st sd).1).lastTitle.isSome = true := by
  rcases processShowBody_total_cases env st sd with
      h1 | ⟨info, hinfo, h1 | h1 | ⟨t, hids, h1 | h1⟩⟩ <;>
    rw [h1] <;> simp [hs]

/-- A completed loop iteration adds 1 to exactly one of the counters. -/
lemma processShowStep_counts (env : Env) (st : MigState)
    (sd : TraktShowData) (st2 : MigState)
    (h : processShowStep env st sd = Except.ok st2) :
    (st2.successful = st.successful + 1 ∧ st2.failed = st.failed) ∨
    (st2.successful = st.successful ∧ st2.failed = st.failed + 1) := by
  cases hb : processShowBody env st sd with
  | mk stb outcome =>
    cases outcome with
    | completed =>
      simp only [processShowStep, hb, Except.ok.injEq] at h
      subst h
      exact Or.inl (processShowBody_completed_counts env st sd stb hb)
    | skipped =>
      simp only [processShowStep, hb, Except.ok.injEq] at h
      subst h
      exact Or.inr (processShowBody_skipped_counts env st sd stb hb)
    | raised e =>
      have hc := processShowBody_raised_counts env st sd stb e hb
      cases ht : stb.lastTitle with
      | some t =>
        simp only [processShowStep, hb, ht, Except.ok.injEq] at h
        subst h
        exact Or.inr ⟨hc.1, by rw [← hc.2]⟩
      | none =>
        simp only [processShowStep, hb, ht] at h
        exact Except.noConfusion h

lemma migrateLoop_counts (env : Env) :
    ∀ (l : List TraktShowData) (st st2 : MigState),
    migrateLoop env st l = Except.ok st2 →
    st2.successful + st2.failed = st.successful + st.failed + l.length
  | [], st, st2, h => by
    unfold migrateLoop at h
    injection h with h1
    rw [← h1]
    simp
  | sd :: rest, st, st2, h => by
    unfold migrateLoop at h
    cases hs : processShowStep env st sd with
    | ok stm =>
      rw [hs] at h
      have hrec := migrateLoop_counts env rest stm st2 h
      rcases processShowStep_counts env st sd stm hs with ⟨a, b⟩ | ⟨a, b⟩ <;>
        rw [hrec, a, b] <;> simp <;> omega
    | error e =>
      rw [hs] at h
      exact Except.noConfusion h

lemma seasonComplete_pos (env : Env) (tmdbId : Nat) (sd : TraktSeason)
    (info : SerializdSeason)
    (hw : sd.episodes.map (fun ep => ep.number) ≠ [])
    (hg : get_season_info env tmdbId sd.number = some info)
    (hc : 0 < info.episodes.length ∧
      info.episodes.length ≤ (sd.episodes.map (fun ep => ep.number)).length) :
    seasonComplete env tmdbId sd = [info.seasonId] := by
  simp only [seasonComplete]
  rw [if_neg hw]
  simp only [hg]
  rw [if_pos hc]

lemma seasonComplete_neg (env : Env) (tmdbId : Nat) (sd : TraktSeason)
    (info : SerializdSeason)
    (hw : sd.episodes.map (fun ep => ep.number) ≠ [])
    (hg : get_season_info env tmdbId sd.number = some info)
    (hc : ¬ (0 < info.episodes.length ∧
      info.episodes.length ≤ (sd.episodes.map (fun ep => ep.number)).length)) :
    seasonComplete env tmdbId sd = [] := by
  simp only [seasonComplete]
  rw [if_neg hw]
  simp only [hg]
  rw [if_neg hc]

lemma seasonTrace_pos (env : Env) (tmdbId : Nat) (sd : TraktSeason)
    (info : SerializdSeason)
    (hw : sd.episodes.map (fun ep => ep.number) ≠ [])
    (hg : get_season_info env tmdbId sd.number = some info)
    (hc : 0 < info.episodes.length ∧
      info.episodes.length ≤ (sd.episodes.map (fun ep => ep.number)).length) :
    seasonTrace env tmdbId sd =
      [Event.getSeasonCall tmdbId sd.number, Event.sleep rate_limit_delay] := by
  simp only [seasonTrace]
  rw [if_neg hw]
  simp only [hg]
  rw [if_pos hc]

lemma seasonTrace_neg (env : Env) (tmdbId : Nat) (sd : TraktSeason)
    (info : SerializdSeason)
    (hw : sd.episodes.map (fun ep => ep.number) ≠ [])
    (hg : get_season_info env tmdbId sd.number = some info)
    (hc : ¬ (0 < info.episodes.length ∧
      info.episodes.length ≤ (sd.episodes.map (fun ep => ep.number)).length)) :
    seasonTrace env tmdbId sd =
      [Event.getSeasonCall tmdbId sd.number,
       Event.logEpisodesCall tmdbId info.seasonId
         (sd.episodes.map (fun ep => ep.number)),
       Event.sleep rate_limit_delay] := by
  simp only [seasonTrace]
  rw [if_neg hw]
  simp only [hg]
  rw [if_neg hc]

/-! ## Independence from marking-call outcomes

The results of `log_episodes` and `log_seasons` are only logged, so the
whole run is a function of the Trakt payloads and the two lookup
endpoints alone. -/

lemma get_show_congr (env1 env2 : Env)
    (h : env1.showLookup = env2.showLookup) (t : Nat) :
    get_show_by_tmdb_id env1 t = get_show_by_tmdb_id env2 t := by
  unfold get_show_by_tmdb_id
  rw [h]

lemma get_season_congr (env1 env2 : Env)
    (h : env1.seasonLookup = env2.seasonLookup) (s n : Nat) :
    get_season_info env1 s n = get_season_info env2 s n := by
  unfold get_season_info
  rw [h]

lemma seasonTrace_congr (env1 env2 : Env)
    (h : env1.seasonLookup = env2.seasonLookup) (t : Nat) (sd : TraktSeason) :
    seasonTrace env1 t sd = seasonTrace env2 t sd := by
  unfold seasonTrace
  rw [get_season_congr env1 env2 h]

lemma seasonComplete_congr (env1 env2 : Env)
    (h : env1.seasonLookup = env2.seasonLookup) (t : Nat) (sd : TraktSeason) :
    seasonComplete env1 t sd = seasonComplete env2 t sd := by
  unfold seasonComplete
  rw [get_season_congr env1 env2 h]

lemma showCompleteSeasons_congr (env1 env2 : Env)
    (h : env1.seasonLookup = env2.seasonLookup) (t : Nat)
    (l : List TraktSeason) :
    showCompleteSeasons env1 t l = showCompleteSeasons env2 t l := by
  unfold showCompleteSeasons
  rw [funext (seasonComplete_congr env1 env2 h t)]

lemma processShowBody_congr (env1 env2 : Env)
    (hS : env1.showLookup = env2.showLookup)
    (hN : env1.seasonLookup = env2.seasonLookup)
    (st : MigState) (sd : TraktShowData) :
    processShowBody env1 st sd = processShowBody env2 st sd := by
  cases hs : sd.showInfo with
  | none =>
    rw [processShowBody_noShow env1 st sd hs,
        processShowBody_noShow env2 st sd hs]
  | some info =>
    cases hi : info.ids with
    | none =>
      rw [processShowBody_noIds env1 st sd info hs hi,
          processShowBody_noIds env2 st sd info hs hi]
    | some o =>
      cases o with
      | none =>
        rw [processShowBody_noTmdb env1 st sd info hs hi,
            processShowBody_noTmdb env2 st sd info hs hi]
      | some t =>
        by_cases hf : get_show_by_tmdb_id env1 t = some true
        · have hf2 : get_show_by_tmdb_id env2 t = some true := by
            rw [← get_show_congr env1 env2 hS]
            exact hf
          rw [processShowBody_found env1 st sd info t hs hi hf,
              processShowBody_found env2 st sd info t hs hi hf2,
              funext (seasonTrace_congr env1 env2 hN t),
              showCompleteSeasons_congr env1 env2 hN t]
        · have hf2 : ¬ get_show_by_tmdb_id env2 t = some true := by
            rw [← get_show_congr env1 env2 hS]
            exact hf
          rw [processShowBody_notFound env1 st sd info t hs hi hf,
              processShowBody_notFound env2 st sd info t hs hi hf2]

lemma processShowStep_congr (env1 env2 : Env)
    (hS : env1.showLookup = env2.showLookup)
    (hN : env1.seasonLookup = env2.seasonLookup)
    (st : MigState) (sd : TraktShowData) :
    processShowStep env1 st sd = processShowStep env2 st sd := by
  unfold processShowStep
  rw [processShowBody_congr env1 env2 hS hN st sd]

lemma migrateLoop_congr (env1 env2 : Env)
    (hS : env1.showLookup = env2.showLookup)
    (hN : env1.seasonLookup = env2.seasonLookup) :
    ∀ (l : List TraktShowData) (st : MigState),
    migrateLoop env1 st l = migrateLoop env2 st l
  | [], st => rfl
  | sd :: rest, st => by
    unfold migrateLoop
    rw [processShowStep_congr env1 env2 hS hN st sd]
    cases processShowStep env2 st sd with
    | ok st2 => exact migrateLoop_congr env1 env2 hS hN rest st2
    | error e => rfl

lemma migrate_congr (env1 env2 : Env)
    (hU : env1.userInfo = env2.userInfo)
    (hW : env1.watchedShows = env2.watchedShows)
    (hS : env1.showLookup = env2.showLookup)
    (hN : env1.seasonLookup = env2.seasonLookup) :
    migrate_watched_shows env1 = migrate_watched_shows env2 := by
  unfold migrate_watched_shows
  rw [hU, hW]
  split
  · split
    · exact migrateLoop_congr env1 env2 hS hN _ initState
    · rfl
    · rfl
  · rfl
  · rfl

lemma seasonTrace_episode_count (env : Env) (t : Nat) (sd : TraktSeason) :
    (seasonTrace env t sd).countP (fun e => e.isEpisodeLog) ≤ 1 := by
  rcases seasonTrace_shape env t sd with h | h | h | ⟨sid, h⟩ <;> rw [h] <;>
    simp [List.countP_cons, Event.isEpisodeLog]

lemma seasonTrace_seasonLog_count (env : Env) (t : Nat) (sd : TraktSeason) :
    (seasonTrace env t sd).countP (fun e => e.isSeasonLog) = 0 := by
  rcases seasonTrace_shape env t sd with h | h | h | ⟨sid, h⟩ <;> rw [h] <;>
    simp [List.countP_cons, Event.isSeasonLog]

lemma sum_seasonLog_count (env : Env) (t : Nat) (l : List TraktSeason) :
    (l.map ((List.countP fun e => e.isSeasonLog) ∘ seasonTrace env t)).sum = 0 := by
  induction l with
  | nil => rfl
  | cons s rest ih => simp [seasonTrace_seasonLog_count env t s, ih]

lemma processShowBody_seasonLog_count (env : Env) (st : MigState)
    (sd : TraktShowData) :
    ((processShowBody env st sd).1).trace.countP (fun e => e.isSeasonLog) ≤
      st.trace.countP (fun e => e.isSeasonLog) + 1 := by
  have hg : ∀ n, Event.isSeasonLog (Event.getShowCall n) = false := fun _ => rfl
  have hl : ∀ n l2, Event.isSeasonLog (Event.logSeasonsCall n l2) = true :=
    fun _ _ => rfl
  rcases processShowBody_total_cases env st sd with
      h1 | ⟨info, hinfo, h1 | h1 | ⟨t, hids, h1 | h1⟩⟩ <;> rw [h1]
  · simp
  · simp
  · simp
  · simp [List.countP_append, List.countP_cons, hg]
  · by_cases hc : showCompleteSeasons env t sd.seasons = []
    · simp [hc, List.countP_append, List.countP_cons, hg,
        sum_seasonLog_count]
    · simp [hc, List.countP_append, List.countP_cons, hg, hl,
        sum_seasonLog_count]

/-! ## Claims -/

/-- C1 counterexample: the threshold rule as stated fails when the
destination reports 0 total episodes.  On `envC1` the destination says
season 1 has 0 episodes while the source reports 1 watched episode, so
the watched count (1) is ≥ the total (0); the claim then demands a
season-level call, but the run sends an episode-level call for that
season and performs no season-level call at all. -/
theorem c1_counterexample :
    get_season_info envC1 7 1 = some ⟨3, []⟩ ∧
    migrate_watched_shows envC1 =
      Except.ok ⟨1, 0, some "A",
        [Event.getShowCall 7, Event.getSeasonCall 7 1,
         Event.logEpisodesCall 7 3 [5], Event.sleep rate_limit_delay,
         Event.sleep rate_limit_delay]⟩ ∧
    List.all
      [Event.getShowCall 7, Event.getSeasonCall 7 1,
       Event.logEpisodesCall 7 3 [5], Event.sleep rate_limit_delay,
       Event.sleep rate_limit_delay] (fun e => !e.isSeasonLog) = true :=
  ⟨rfl, rfl, rfl⟩

/-- C1 (amended): for every processed watched season (nonempty watched
list, season found on the destination), if the destination's total
episode count is positive AND the watched count is ≥ that total, the
season's id is appended to the complete-seasons batch (marked later by
the show's season-level call) and no episode-level call is made for it;
otherwise the specific watched episode numbers are sent in an
episode-level call and the season is not batched. -/
theorem c1_threshold_rule (env : Env) (tmdbId : Nat)
    (acc : List Nat × List Event) (sd : TraktSeason) (info : SerializdSeason)
    (hw : sd.episodes.map (fun ep => ep.number) ≠ [])
    (hg : get_season_info env tmdbId sd.number = some info) :
    (0 < info.episodes.length ∧
        info.episodes.length ≤ (sd.episodes.map (fun ep => ep.number)).length →
      processSeason env tmdbId acc sd =
        (acc.1 ++ [info.seasonId],
         acc.2 ++ [Event.getSeasonCall tmdbId sd.number,
                   Event.sleep rate_limit_delay])) ∧
    (¬ (0 < info.episodes.length ∧
        info.episodes.length ≤ (sd.episodes.map (fun ep => ep.number)).length) →
      processSeason env tmdbId acc sd =
        (acc.1,
         acc.2 ++ [Event.getSeasonCall tmdbId sd.number,
                   Event.logEpisodesCall tmdbId info.seasonId
                     (sd.episodes.map (fun ep => ep.number)),
                   Event.sleep rate_limit_delay])) := by
  constructor <;> intro hc
  · rw [processSeason_eq, seasonComplete_pos env tmdbId sd info hw hg hc,
        seasonTrace_pos env tmdbId sd info hw hg hc]
  · rw [processSeason_eq, seasonComplete_neg env tmdbId sd info hw hg hc,
        seasonTrace_neg env tmdbId sd info hw hg hc]
    simp

theorem c1_threshold_rule_witness :
    processSeason envW1 7 ([], []) ⟨1, [⟨1⟩, ⟨2⟩]⟩ =
      ([42], [Event.getSeasonCall 7 1, Event.sleep rate_limit_delay]) ∧
    processSeason envW1 7 ([], []) ⟨2, [⟨1⟩]⟩ =
      ([], [Event.getSeasonCall 7 2,
            Event.logEpisodesCall 7 42 [1],
            Event.sleep rate_limit_delay]) :=
  ⟨(c1_threshold_rule envW1 7 ([], []) ⟨1, [⟨1⟩, ⟨2⟩]⟩ ⟨42, [(), ()]⟩
      (by decide) (by decide)).1 (by decide),
   (c1_threshold_rule envW1 7 ([], []) ⟨2, [⟨1⟩]⟩ ⟨42, [(), ()]⟩
      (by decide) (by decide)).2 (by decide)⟩

/-- C5: a processed season whose destination total episode count is 0 is
never appended to the complete-seasons batch (the season-level path
requires a strictly positive total); its watched episode numbers are
submitted individually instead. -/
theorem c5_zero_total_never_batched (env : Env) (tmdbId : Nat)
    (acc : List Nat × List Event) (sd : TraktSeason) (info : SerializdSeason)
    (hw : sd.episodes.map (fun ep => ep.number) ≠ [])
    (hg : get_season_info env tmdbId sd.number = some info)
    (h0 : info.episodes.length = 0) :
    processSeason env tmdbId acc sd =
      (acc.1,
       acc.2 ++ [Event.getSeasonCall tmdbId sd.number,
                 Event.logEpisodesCall tmdbId info.seasonId
                   (sd.episodes.map (fun ep => ep.number)),
                 Event.sleep rate_limit_delay]) := by
  have hc : ¬ (0 < info.episodes.length ∧
      info.episodes.length ≤ (sd.episodes.map (fun ep => ep.number)).length) := by
    rw [h0]
    simp
  rw [processSeason_eq, seasonComplete_neg env tmdbId sd info hw hg hc,
      seasonTrace_neg env tmdbId sd info hw hg hc]
  simp

theorem c5_zero_total_never_batched_witness :
    processSeason envW5 7 ([], []) ⟨1, [⟨5⟩]⟩ =
      ([], [Event.getSeasonCall 7 1, Event.logEpisodesCall 7 3 [5],
            Event.sleep rate_limit_delay]) :=
  c5_zero_total_never_batched envW5 7 ([], []) ⟨1, [⟨5⟩]⟩ ⟨3, []⟩
    (by decide) (by decide) rfl

/-- C9: each iteration of the per-show loop that does not abort bumps
exactly one of the two counters by exactly one; consequently a run that
reaches the final report has successful + failed = number of shows
retrieved from the source. -/
theorem c9_tally_partition :
    (∀ (env : Env) (st : MigState) (sd : TraktShowData) (st2 : MigState),
       processShowStep env st sd = Except.ok st2 →
       (st2.successful = st.successful + 1 ∧ st2.failed = st.failed) ∨
       (st2.successful = st.successful ∧ st2.failed = st.failed + 1)) ∧
    (∀ (env : Env) (shows : List TraktShowData) (st : MigState),
       env.watchedShows = HttpResp.resp 200 shows →
       migrate_watched_shows env = Except.ok st →
       st.successful + st.failed = shows.length) := by
  refine ⟨fun env st sd st2 h => processShowStep_counts env st sd st2 h, ?_⟩
  intro env shows st hws hok
  unfold migrate_watched_shows at hok
  split at hok
  · split at hok
    · rename_i shows2 heq
      rw [hws] at heq
      injection heq with hstat hbody
      subst hbody
      have := migrateLoop_counts env shows initState st hok
      simpa [initState] using this
    · exact Except.noConfusion hok
    · exact Except.noConfusion hok
  · exact Except.noConfusion hok
  · exact Except.noConfusion hok

theorem c9_tally_partition_witness :
    migrate_watched_shows envW9 = Except.ok stW9 ∧
    stW9.successful + stW9.failed =
      [(⟨some ⟨"A", none, some (some 7)⟩, [⟨1, [⟨1⟩, ⟨2⟩]⟩]⟩ : TraktShowData)].length :=
  ⟨rfl, c9_tally_partition.2 envW9 _ stW9 rfl rfl⟩

/-- C10: the episode-marking and season-marking operations are total
(modelled as plain `Bool`-valued functions: no exception reaches the
caller); each returns `True` exactly when the destination answers HTTP
status 200 or 201, and `False` on any other status or on a transport
exception. -/
theorem c10_marking_calls_return_bool (env : Env) (showId seasonId : Nat)
    (eps : List Nat) (seasonIds : List Nat) :
    (log_episodes env showId seasonId eps = true ↔
      env.episodeLogResp showId seasonId eps = HttpResp.resp 200 () ∨
      env.episodeLogResp showId seasonId eps = HttpResp.resp 201 ()) ∧
    (log_seasons env showId seasonIds = true ↔
      env.seasonLogResp showId seasonIds = HttpResp.resp 200 () ∨
      env.seasonLogResp showId seasonIds = HttpResp.resp 201 ()) := by
  constructor
  · unfold log_episodes
    cases h : env.episodeLogResp showId seasonId eps with
    | resp s b =>
      cases b
      simp
    | exn => simp
  · unfold log_seasons
    cases h : env.seasonLogResp showId seasonIds with
    | resp s b =>
      cases b
      simp
    | exn => simp

/-- C4 counterexample: on `envC4` the single show's record lacks the
`'ids'` key, so `show_info['ids']` raises a `KeyError` while processing
that show — yet the run does not abort: the exception is absorbed by the
per-show handler as one more failed migration and the run completes. -/
theorem c4_counterexample :
    processShowBody envC4 initState ⟨some ⟨"A", none, none⟩, []⟩ =
      ({ initState with lastTitle := some "A" },
       ShowOutcome.raised PyExn.keyError) ∧
    migrate_watched_shows envC4 =
      Except.ok ⟨0, 1, some "A", [Event.sleep rate_limit_delay]⟩ :=
  ⟨rfl, rfl⟩

/-- With the user-info fetch already answered 200, the migration is the
match on the watched-shows fetch. -/
lemma migrate_eq_afterUser (env : Env) (u : String)
    (hu : env.userInfo = HttpResp.resp 200 u) :
    migrate_watched_shows env =
      (match env.watchedShows with
       | HttpResp.resp 200 shows => migrateLoop env initState shows
       | HttpResp.resp s _ => Except.error (PyExn.apiError s, initState)
       | HttpResp.exn => Except.error (PyExn.transportError, initState)) := by
  unfold migrate_watched_shows
  rw [hu]

/-- C4 (amended): exceptions raised while fetching the user info or the
watched-shows list (a non-200 status or a transport exception) abort the
whole run; an exception raised while processing an individual show is
caught by the per-show handler and absorbed as a per-item failure — the
failure counter increments by exactly one and the run continues —
whenever some show title has been bound, and aborts the run (by a
`NameError` in the handler itself) only when none ever was. -/
theorem c4_exception_scoping :
    (∀ (env : Env) (s : Nat) (b : String), s ≠ 200 →
       env.userInfo = HttpResp.resp s b →
       migrate_watched_shows env =
         Except.error (PyExn.apiError s, initState)) ∧
    (∀ env : Env, env.userInfo = HttpResp.exn →
       migrate_watched_shows env =
         Except.error (PyExn.transportError, initState)) ∧
    (∀ (env : Env) (u : String) (s : Nat) (b : List TraktShowData),
       s ≠ 200 →
       env.userInfo = HttpResp.resp 200 u →
       env.watchedShows = HttpResp.resp s b →
       migrate_watched_shows env =
         Except.error (PyExn.apiError s, initState)) ∧
    (∀ (env : Env) (u : String),
       env.userInfo = HttpResp.resp 200 u →
       env.watchedShows = HttpResp.exn →
       migrate_watched_shows env =
         Except.error (PyExn.transportError, initState)) ∧
    (∀ (env : Env) (st stb : MigState) (sd : TraktShowData) (e : PyExn)
       (t : String),
       processShowBody env st sd = (stb, ShowOutcome.raised e) →
       stb.lastTitle = some t →
       processShowStep env st sd = Except.ok
         { stb with failed := stb.failed + 1,
                    trace := stb.trace ++ [Event.sleep rate_limit_delay] } ∧
       stb.successful = st.successful ∧ stb.failed = st.failed) ∧
    (∀ (env : Env) (st stb : MigState) (sd : TraktShowData) (e : PyExn),
       processShowBody env st sd = (stb, ShowOutcome.raised e) →
       stb.lastTitle = none →
       processShowStep env st sd = Except.error (PyExn.nameError, stb)) := by
  refine ⟨?_, ?_, ?_, ?_, ?_, ?_⟩
  · intro env s b hs hu
    unfold migrate_watched_shows
    split
    · rename_i username heq
      rw [hu] at heq
      injection heq with h1 h2
      exact absurd h1 hs
    · rename_i s2 b2 heq
      rw [hu] at heq
      injection heq with h1 h2
      subst h1
      rfl
    · rename_i heq
      rw [hu] at heq
      exact HttpResp.noConfusion heq
  · intro env hu
    unfold migrate_watched_shows
    split
    · rename_i username heq
      rw [hu] at heq
      exact HttpResp.noConfusion heq
    · rename_i s2 b2 heq
      rw [hu] at heq
      exact HttpResp.noConfusion heq
    · rfl
  · intro env u s b hs hu hw
    rw [migrate_eq_afterUser env u hu]
    split
    · rename_i shows2 heq
      rw [hw] at heq
      injection heq with h1 h2
      exact absurd h1 hs
    · rename_i s2 b2 heq
      rw [hw] at heq
      injection heq with h1 h2
      subst h1
      rfl
    · rename_i heq
      rw [hw] at heq
      exact HttpResp.noConfusion heq
  · intro env u hu hw
    rw [migrate_eq_afterUser env u hu]
    split
    · rename_i shows2 heq
      rw [hw] at heq
      exact HttpResp.noConfusion heq
    · rename_i s2 b2 heq
      rw [hw] at heq
      exact HttpResp.noConfusion heq
    · rfl
  · intro env st stb sd e t hb ht
    have hc := processShowBody_raised_counts env st sd stb e hb
    exact ⟨by simp only [processShowStep, hb, ht], hc.1, hc.2⟩
  · intro env st stb sd e hb hn
    simp only [processShowStep, hb, hn]

theorem c4_exception_scoping_witness :
    migrate_watched_shows envW4 =
      Except.error (PyExn.apiError 500, initState) ∧
    migrate_watched_shows envW4d =
      Except.error (PyExn.transportError, initState) ∧
    migrate_watched_shows envW4b =
      Except.error (PyExn.apiError 503, initState) ∧
    migrate_watched_shows envW4c =
      Except.error (PyExn.transportError, initState) ∧
    processShowStep envC4 initState ⟨some ⟨"A", none, none⟩, []⟩ =
      Except.ok ⟨0, 1, some "A", [Event.sleep rate_limit_delay]⟩ ∧
    processShowStep envW4 initState ⟨none, []⟩ =
      Except.error (PyExn.nameError, initState) :=
  ⟨c4_exception_scoping.1 envW4 500 "user" (by decide) rfl,
   c4_exception_scoping.2.1 envW4d rfl,
   c4_exception_scoping.2.2.1 envW4b "user" 503 [] (by decide) rfl rfl,
   c4_exception_scoping.2.2.2.1 envW4c "user" rfl rfl,
   (c4_exception_scoping.2.2.2.2.1 envC4 initState
     ⟨0, 0, some "A", []⟩ ⟨some ⟨"A", none, none⟩, []⟩
     PyExn.keyError "A" rfl rfl).1,
   c4_exception_scoping.2.2.2.2.2 envW4 initState initState ⟨none, []⟩
     PyExn.keyError rfl rfl⟩

theorem c10_marking_calls_return_bool_witness :
    log_episodes envW7b 7 3 [1] = false ∧ log_seasons envW7a 7 [3] = true :=
  ⟨by
    have h := (c10_marking_calls_return_bool envW7b 7 3 [1] [3]).1
    cases hb : log_episodes envW7b 7 3 [1]
    · rfl
    · exact absurd (h.mp hb) (by decide),
   (c10_marking_calls_return_bool envW7a 7 3 [1] [3]).2.mpr (Or.inl rfl)⟩

/-- C7: failed marking calls are never retried.  (1) The entire run — its
event trace, counters and outcome — is unchanged when the destination's
responses to the two marking endpoints change arbitrarily (so a failure
cannot trigger any extra call); (2) one season iteration performs at most
one episode-marking call; (3) one show iteration performs at most one
season-marking call. -/
theorem c7_no_retry_best_effort :
    (∀ env1 env2 : Env,
       env1.userInfo = env2.userInfo →
       env1.watchedShows = env2.watchedShows →
       env1.showLookup = env2.showLookup →
       env1.seasonLookup = env2.seasonLookup →
       migrate_watched_shows env1 = migrate_watched_shows env2) ∧
    (∀ (env : Env) (tmdbId : Nat) (sd : TraktSeason),
       (seasonTrace env tmdbId sd).countP (fun e => e.isEpisodeLog) ≤ 1) ∧
    (∀ (env : Env) (st : MigState) (sd : TraktShowData),
       ((processShowBody env st sd).1).trace.countP (fun e => e.isSeasonLog) ≤
         st.trace.countP (fun e => e.isSeasonLog) + 1) :=
  ⟨fun env1 env2 hU hW hS hN => migrate_congr env1 env2 hU hW hS hN,
   seasonTrace_episode_count,
   processShowBody_seasonLog_count⟩

theorem c7_no_retry_best_effort_witness :
    migrate_watched_shows envW7a = migrate_watched_shows envW7b ∧
    envW7a.episodeLogResp 7 3 [1] = HttpResp.resp 200 () ∧
    envW7b.episodeLogResp 7 3 [1] = HttpResp.resp 500 () :=
  ⟨c7_no_retry_best_effort.1 envW7a envW7b rfl rfl rfl rfl, rfl, rfl⟩

lemma seasonTrace_sleep_delay (env : Env) (t : Nat) (sd : TraktSeason)
    (d : ℚ) (h : Event.sleep d ∈ seasonTrace env t sd) :
    d = rate_limit_delay := by
  rcases mem_seasonTrace env t sd (Event.sleep d) h with h1 | h1 | ⟨sid, h1⟩
  · exact Event.noConfusion h1
  · injection h1
  · exact Event.noConfusion h1

lemma processShowBody_sleep_delay (env : Env) (st : MigState)
    (sd : TraktShowData)
    (hst : ∀ d, Event.sleep d ∈ st.trace → d = rate_limit_delay) :
    ∀ d, Event.sleep d ∈ ((processShowBody env st sd).1).trace →
      d = rate_limit_delay := by
  intro d hd
  rcases processShowBody_total_cases env st sd with
      h1 | ⟨info, hinfo, h1 | h1 | ⟨t, hids, h1 | h1⟩⟩ <;> rw [h1] at hd
  · exact hst d hd
  · exact hst d hd
  · exact hst d hd
  · simp only [List.mem_append] at hd
    rcases hd with hd | hd
    · exact hst d hd
    · simp at hd
  · simp only [List.mem_append] at hd
    rcases hd with ((hd | hd) | hd) | hd
    · exact hst d hd
    · simp at hd
    · rw [List.mem_flatten] at hd
      obtain ⟨tr, htr, hd⟩ := hd
      rw [List.mem_map] at htr
      obtain ⟨s, hs, rfl⟩ := htr
      exact seasonTrace_sleep_delay env t s d hd
    · by_cases hc : showCompleteSeasons env t sd.seasons = [] <;>
        simp [hc] at hd

lemma processShowStep_sleep_delay (env : Env) (st : MigState)
    (sd : TraktShowData)
    (hst : ∀ d, Event.sleep d ∈ st.trace → d = rate_limit_delay) :
    ∀ d, Event.sleep d ∈ (resultState (processShowStep env st sd)).trace →
      d = rate_limit_delay := by
  intro d hd
  have hbody := processShowBody_sleep_delay env st sd hst
  cases hb : processShowBody env st sd with
  | mk stb outcome =>
    have hstb : ∀ d2, Event.sleep d2 ∈ stb.trace → d2 = rate_limit_delay := by
      intro d2 hd2
      apply hbody d2
      rw [hb]
      exact hd2
    cases outcome with
    | completed =>
      simp only [processShowStep, hb, resultState] at hd
      simp only [List.mem_append, List.mem_singleton] at hd
      rcases hd with hd | hd
      · exact hstb d hd
      · injection hd
    | skipped =>
      simp only [processShowStep, hb, resultState] at hd
      exact hstb d hd
    | raised e =>
      cases ht : stb.lastTitle with
      | some tt =>
        simp only [processShowStep, hb, ht, resultState] at hd
        simp only [List.mem_append, List.mem_singleton] at hd
        rcases hd with hd | hd
        · exact hstb d hd
        · injection hd
      | none =>
        simp only [processShowStep, hb, ht, resultState] at hd
        exact hstb d hd

lemma migrateLoop_sleep_delay (env : Env) :
    ∀ (l : List TraktShowData) (st : MigState),
    (∀ d, Event.sleep d ∈ st.trace → d = rate_limit_delay) →
    ∀ d, Event.sleep d ∈ (resultState (migrateLoop env st l)).trace →
      d = rate_limit_delay
  | [], st, hst, d, hd => hst d hd
  | sd :: rest, st, hst, d, hd => by
    have hstep := processShowStep_sleep_delay env st sd hst
    unfold migrateLoop at hd
    cases hs : processShowStep env st sd with
    | ok st2 =>
      rw [hs] at hd
      have hst2 : ∀ d2, Event.sleep d2 ∈ st2.trace → d2 = rate_limit_delay := by
        intro d2 hd2
        apply hstep d2
        rw [hs]
        exact hd2
      exact migrateLoop_sleep_delay env rest st2 hst2 d hd
    | error e =>
      rw [hs] at hd
      apply hstep d
      rw [hs]
      exact hd

lemma migrate_sleep_delay (env : Env) :
    ∀ d, Event.sleep d ∈ (resultState (migrate_watched_shows env)).trace →
      d = rate_limit_delay := by
  intro d hd
  unfold migrate_watched_shows at hd
  split at hd
  · split at hd
    · refine migrateLoop_sleep_delay env _ initState ?_ d hd
      intro d2 h2
      simp [initState] at h2
    · simp [resultState, initState] at hd
    · simp [resultState, initState] at hd
  · simp [resultState, initState] at hd
  · simp [resultState, initState] at hd

/-- C8 counterexample: on `envC8` the run's trace begins with the show
lookup immediately followed by the season lookup — two consecutive
outbound API calls with no sleep between them, contradicting "a
fixed-duration sleep separates consecutive outbound API calls". -/
theorem c8_counterexample :
    (resultState (migrate_watched_shows envC8)).trace =
      [Event.getShowCall 7, Event.getSeasonCall 7 1,
       Event.logEpisodesCall 7 3 [1], Event.sleep rate_limit_delay,
       Event.sleep rate_limit_delay] ∧
    (Event.getShowCall 7).isApiCall = true ∧
    (Event.getSeasonCall 7 1).isApiCall = true :=
  ⟨rfl, rfl, rfl⟩

/-- C8 (amended): execution is strictly sequential with fixed sleep-based
pacing: every sleep in any run's trace has the fixed duration
`rate_limit_delay` (1.0 s); a sleep ends every fully processed season
iteration; and a sleep follows every show iteration that ran its `try`
block to completion.  But not every pair of consecutive outbound API
calls is separated by a sleep (e.g. the show lookup and the first season
lookup are adjacent). -/
theorem c8_fixed_sleep_pacing :
    (∀ (env : Env) (d : ℚ),
       Event.sleep d ∈ (resultState (migrate_watched_shows env)).trace →
       d = rate_limit_delay) ∧
    (∀ (env : Env) (tmdbId : Nat) (sd : TraktSeason)
       (info : SerializdSeason),
       sd.episodes.map (fun ep => ep.number) ≠ [] →
       get_season_info env tmdbId sd.number = some info →
       ∃ pre, seasonTrace env tmdbId sd =
         pre ++ [Event.sleep rate_limit_delay]) ∧
    (∀ (env : Env) (st : MigState) (sd : TraktShowData) (st2 : MigState),
       processShowBody env st sd = (st2, ShowOutcome.completed) →
       processShowStep env st sd = Except.ok
         { st2 with trace := st2.trace ++ [Event.sleep rate_limit_delay] }) := by
  refine ⟨migrate_sleep_delay, ?_, ?_⟩
  · intro env tmdbId sd info hw hg
    by_cases hc : 0 < info.episodes.length ∧
        info.episodes.length ≤ (sd.episodes.map (fun ep => ep.number)).length
    · refine ⟨[Event.getSeasonCall tmdbId sd.number], ?_⟩
      rw [seasonTrace_pos env tmdbId sd info hw hg hc]
      rfl
    · refine ⟨[Event.getSeasonCall tmdbId sd.number,
        Event.logEpisodesCall tmdbId info.seasonId
          (sd.episodes.map (fun ep => ep.number))], ?_⟩
      rw [seasonTrace_neg env tmdbId sd info hw hg hc]
      rfl
  · intro env st sd st2 h
    simp only [processShowStep, h]

theorem c8_fixed_sleep_pacing_witness :
    ((1 : ℚ) = rate_limit_delay) ∧
    (seasonTrace envW3 7 ⟨1, [⟨1⟩]⟩).getLast? =
      some (Event.sleep rate_limit_delay) ∧
    processShowStep envW3 initState ⟨some ⟨"C", none, some (some 7)⟩, []⟩ =
      Except.ok ⟨1, 0, some "C",
        [Event.getShowCall 7, Event.sleep rate_limit_delay]⟩ := by
  refine ⟨c8_fixed_sleep_pacing.1 envC8 1 (by decide), ?_, ?_⟩
  · obtain ⟨pre, hpre⟩ := c8_fixed_sleep_pacing.2.1 envW3 7 ⟨1, [⟨1⟩]⟩
      ⟨3, [(), ()]⟩ (by decide) (by decide)
    rw [hpre, List.getLast?_concat]
  · exact c8_fixed_sleep_pacing.2.2 envW3 initState
      ⟨some ⟨"C", none, some (some 7)⟩, []⟩
      ⟨1, 0, some "C", [Event.getShowCall 7]⟩ rfl

lemma processShowBody_episode_lists (env : Env) (st : MigState)
    (sd : TraktShowData)
    (hst : ∀ (i j : Nat) (l : List Nat),
      Event.logEpisodesCall i j l ∈ st.trace →
      l.Nodup ∧ ∀ n ∈ l, 0 < n)
    (hsd : ∀ s ∈ sd.seasons,
      (s.episodes.map (fun ep => ep.number)).Nodup ∧
      ∀ n ∈ s.episodes.map (fun ep => ep.number), 0 < n) :
    ∀ (i j : Nat) (l : List Nat),
      Event.logEpisodesCall i j l ∈ ((processShowBody env st sd).1).trace →
      l.Nodup ∧ ∀ n ∈ l, 0 < n := by
  intro i j l hd
  rcases processShowBody_total_cases env st sd with
      h1 | ⟨info, hinfo, h1 | h1 | ⟨t, hids, h1 | h1⟩⟩ <;> rw [h1] at hd
  · exact hst i j l hd
  · exact hst i j l hd
  · exact hst i j l hd
  · simp only [List.mem_append] at hd
    rcases hd with hd | hd
    · exact hst i j l hd
    · simp at hd
  · simp only [List.mem_append] at hd
    rcases hd with ((hd | hd) | hd) | hd
    · exact hst i j l hd
    · simp at hd
    · rw [List.mem_flatten] at hd
      obtain ⟨tr, htr, hd⟩ := hd
      rw [List.mem_map] at htr
      obtain ⟨s, hs, rfl⟩ := htr
      rcases mem_seasonTrace env t s _ hd with h2 | h2 | ⟨sid, h2⟩
      · exact Event.noConfusion h2
      · exact Event.noConfusion h2
      · injection h2 with e1 e2 e3
        subst e3
        exact hsd s hs
    · by_cases hc : showCompleteSeasons env t sd.seasons = [] <;>
        simp [hc] at hd

lemma processShowStep_episode_lists (env : Env) (st : MigState)
    (sd : TraktShowData)
    (hst : ∀ (i j : Nat) (l : List Nat),
      Event.logEpisodesCall i j l ∈ st.trace →
      l.Nodup ∧ ∀ n ∈ l, 0 < n)
    (hsd : ∀ s ∈ sd.seasons,
      (s.episodes.map (fun ep => ep.number)).Nodup ∧
      ∀ n ∈ s.episodes.map (fun ep => ep.number), 0 < n) :
    ∀ (i j : Nat) (l : List Nat),
      Event.logEpisodesCall i j l ∈
        (resultState (processShowStep env st sd)).trace →
      l.Nodup ∧ ∀ n ∈ l, 0 < n := by
  intro i j l hd
  have hbody := processShowBody_episode_lists env st sd hst hsd
  cases hb : processShowBody env st sd with
  | mk stb outcome =>
    have hstb : ∀ (i2 j2 : Nat) (l2 : List Nat),
        Event.logEpisodesCall i2 j2 l2 ∈ stb.trace →
        l2.Nodup ∧ ∀ n ∈ l2, 0 < n := by
      intro i2 j2 l2 h2
      apply hbody
      rw [hb]
      exact h2
    cases outcome with
    | completed =>
      simp only [processShowStep, hb, resultState] at hd
      simp only [List.mem_append, List.mem_singleton] at hd
      rcases hd with hd | hd
      · exact hstb i j l hd
      · exact Event.noConfusion hd
    | skipped =>
      simp only [processShowStep, hb, resultState] at hd
      exact hstb i j l hd
    | raised e =>
      cases ht : stb.lastTitle with
      | some tt =>
        simp only [processShowStep, hb, ht, resultState] at hd
        simp only [List.mem_append, List.mem_singleton] at hd
        rcases hd with hd | hd
        · exact hstb i j l hd
        · exact Event.noConfusion hd
      | none =>
        simp only [processShowStep, hb, ht, resultState] at hd
        exact hstb i j l hd

lemma migrateLoop_episode_lists (env : Env) :
    ∀ (lt : List TraktShowData) (st : MigState),
    (∀ sd ∈ lt, ∀ s ∈ sd.seasons,
      (s.episodes.map (fun ep => ep.number)).Nodup ∧
      ∀ n ∈ s.episodes.map (fun ep => ep.number), 0 < n) →
    (∀ (i j : Nat) (l : List Nat),
      Event.logEpisodesCall i j l ∈ st.trace →
      l.Nodup ∧ ∀ n ∈ l, 0 < n) →
    ∀ (i j : Nat) (l : List Nat),
      Event.logEpisodesCall i j l ∈
        (resultState (migrateLoop env st lt)).trace →
      l.Nodup ∧ ∀ n ∈ l, 0 < n
  | [], st, _hall, hst, i, j, l, hd => hst i j l hd
  | sd :: rest, st, hall, hst, i, j, l, hd => by
    have hsd : ∀ s ∈ sd.seasons,
        (s.episodes.map (fun ep => ep.number)).Nodup ∧
        ∀ n ∈ s.episodes.map (fun ep => ep.number), 0 < n :=
      fun s hs => hall sd (List.mem_cons_self sd rest) s hs
    have hstep := processShowStep_episode_lists env st sd hst hsd
    unfold migrateLoop at hd
    cases hs : processShowStep env st sd with
    | ok st2 =>
      rw [hs] at hd
      have hst2 : ∀ (i2 j2 : Nat) (l2 : List Nat),
          Event.logEpisodesCall i2 j2 l2 ∈ st2.trace →
          l2.Nodup ∧ ∀ n ∈ l2, 0 < n := by
        intro i2 j2 l2 h2
        apply hstep i2 j2 l2
        rw [hs]
        exact h2
      exact migrateLoop_episode_lists env rest st2
        (fun sd2 hsd2 => hall sd2 (List.mem_cons_of_mem sd hsd2))
        hst2 i j l hd
    | error e =>
      rw [hs] at hd
      apply hstep i j l
      rw [hs]
      exact hd

/-- C6 counterexample: the code submits the season's episode numbers
verbatim, with no deduplication or positivity check.  On `envC6` the
source reports episode number 0 twice for season 1, and the run's
episode-marking call carries exactly `[0, 0]` — neither unique nor
positive. -/
theorem c6_counterexample :
    migrate_watched_shows envC6 =
      Except.ok ⟨1, 0, some "A",
        [Event.getShowCall 7, Event.getSeasonCall 7 1,
         Event.logEpisodesCall 7 3 [0, 0], Event.sleep rate_limit_delay,
         Event.sleep rate_limit_delay]⟩ ∧
    ¬ (([0, 0] : List Nat).Nodup ∧ ∀ n ∈ ([0, 0] : List Nat), 0 < n) :=
  ⟨rfl, by decide⟩

/-- C6 (amended): provided every season in the source payload lists
unique, positive episode numbers, every episode-marking call of the run
submits a list of unique positive integers — because each call forwards
one season's watched numbers unchanged. -/
theorem c6_episode_call_payloads (env : Env) (shows : List TraktShowData)
    (hws : env.watchedShows = HttpResp.resp 200 shows)
    (hgood : ∀ sd ∈ shows, ∀ s ∈ sd.seasons,
      (s.episodes.map (fun ep => ep.number)).Nodup ∧
      ∀ n ∈ s.episodes.map (fun ep => ep.number), 0 < n) :
    ∀ (i j : Nat) (l : List Nat),
      Event.logEpisodesCall i j l ∈
        (resultState (migrate_watched_shows env)).trace →
      l.Nodup ∧ ∀ n ∈ l, 0 < n := by
  intro i j l hd
  unfold migrate_watched_shows at hd
  split at hd
  · split at hd
    · rename_i shows2 heq
      rw [hws] at heq
      injection heq with hstat hbody
      subst hbody
      refine migrateLoop_episode_lists env shows initState hgood ?_ i j l hd
      intro i2 j2 l2 h2
      simp [initState] at h2
    · simp [resultState, initState] at hd
    · simp [resultState, initState] at hd
  · simp [resultState, initState] at hd
  · simp [resultState, initState] at hd

theorem c6_episode_call_payloads_witness :
    Event.logEpisodesCall 7 3 [2] ∈
      (resultState (migrate_watched_shows envW6)).trace ∧
    (([2] : List Nat).Nodup ∧ ∀ n ∈ ([2] : List Nat), 0 < n) :=
  ⟨by decide,
   c6_episode_call_payloads envW6
     [⟨some ⟨"A", none, some (some 7)⟩, [⟨1, [⟨2⟩]⟩]⟩] rfl (by decide)
     7 3 [2] (by decide)⟩

end TraktToSerializd
